import Mathlib

/-!
Verification of the medchain-oracle service (src/main.py) against its
specification.  The HTTP handlers are shallowly embedded: the random
draws made by the handler (`random.uniform`, `random.randint`) become
explicit parameters, floats become exact rationals, and the Python
rounding `round(x, d)` is modelled as rounding `x * 10^d` to the nearest integer
(ties here never arise at the inputs the claims quantify over, so the
tie-breaking convention is immaterial).
-/

namespace MedChain

/-- Python rounding `round(x, d)` on exact rationals: round `x` to `d`
decimal places. -/
def roundTo (d : ℕ) (x : ℚ) : ℚ := (round (x * 10 ^ d) : ℚ) / 10 ^ d

/-- An uploaded multipart file as the FastAPI `UploadFile` type exposes it:
a filename, a declared content type, and the raw bytes. -/
structure UploadFileData where
  filename : String
  content_type : String
  content : List ℕ
deriving DecidableEq, Repr

/-- The hash formatting of src/main.py line 34: hexadecimal rendering of
`n`, left-padded with zeros to 64 digits, prefixed by the two characters 0x. -/
def hex64 (n : ℕ) : String :=
  "0x" ++ String.mk (List.leftpad 64 '0' (Nat.toDigits 16 n))

/-- The JSON object returned by `POST /verify` (src/main.py lines 29-35):
exactly the five fields of the response dict. -/
structure Verdict where
  authentic : Bool
  confidence : ℚ
  risk_level : String
  anomaly_score : ℚ
  blockchain_hash : String
deriving DecidableEq, Repr

/-- Embedding of `verify_drug` (src/main.py lines 23-35).  The three random draws of the handler are explicit parameters: `confidence` is the value of
`random.uniform(0.55, 0.95)`, `anomalyRaw` the value of
`random.uniform(0.1, 0.5)`, and `hashInt` the value of
`random.randint(10**63, 10**64-1)`.  The uploaded `file` is the sole request argument of the handler; the body never reads it. -/
def verify_drug (file : UploadFileData) (confidence anomalyRaw : ℚ)
    (hashInt : ℕ) : Verdict :=
  let is_authentic : Bool := confidence > 0.5
  { authentic := is_authentic
    confidence := roundTo 1 (confidence * 100)
    risk_level := if is_authentic then "LOW" else "HIGH"
    anomaly_score := roundTo 3 anomalyRaw
    blockchain_hash := hex64 hashInt }

/-- The JSON object returned by `GET /health` (src/main.py line 21). -/
structure HealthResponse where
  status : String
  service : String
deriving DecidableEq, Repr

/-- Embedding of `health_check` (src/main.py lines 19-21).  The handler
takes no argument and reads no state. -/
def health_check : HealthResponse :=
  { status := "healthy", service := "medchain-oracle-api" }

/-- The JSON object returned by `GET /shortage-prediction`
(src/main.py lines 39-44). -/
structure ShortageResponse where
  drug : String
  location : String
  risk_score : ℚ
  recommendation : String
deriving DecidableEq, Repr

/-- Embedding of `predict_shortage` (src/main.py lines 37-44): a constant
payload, no argument, no state. -/
def predict_shortage : ShortageResponse :=
  { drug := "Insulin Glargine 100U/mL"
    location := "Mumbai Central"
    risk_score := 85.0
    recommendation := "URGENT: Order 259 units immediately" }

/-- Risk tiers ordered by increasing safety, to state monotonicity of the
risk tier in the confidence: `HIGH` ranks below `LOW`. -/
def riskRank (r : String) : ℕ := if r = "HIGH" then 0 else 1

/-- A sample concrete upload, used to instantiate universally quantified
statements about `verify_drug`. -/
def sampleFile : UploadFileData :=
  { filename := "pill.png", content_type := "image/png"
    content := [137, 80, 78, 71, 0, 1, 2, 3, 4, 5] }

/-- A second concrete upload (different name, type, content and size)
for independence statements. -/
def otherFile : UploadFileData :=
  { filename := "data.bin", content_type := "application/octet-stream"
    content := List.replicate 6291456 255 }

/- ----------------------------------------------------------------
Components that exist only in the specification (the stub in src/ has
no admission control and no artifact validation).
---------------------------------------------------------------- -/

/-- Modelled from the spec: the Admission Controller of §4.1 is absent
from src/.  State is the configured capacity together with the bounded
counter of in-flight tickets. -/
structure AdmissionState where
  capacity : ℕ
  inFlight : ℕ
deriving DecidableEq, Repr

/-- Modelled from the spec: outcome of `admit()` — a ticket, or
`Rejected`. -/
inductive AcquireResult where
  | ticket
  | rejected
deriving DecidableEq, Repr

/-- Modelled from the spec: `admit() -> AdmissionTicket | Rejected`
(§4.1) — if the current in-flight count is below capacity, increment it
and return a ticket; otherwise return `Rejected` immediately. -/
def acquire (s : AdmissionState) : AcquireResult × AdmissionState :=
  if s.inFlight < s.capacity then
    (AcquireResult.ticket, { s with inFlight := s.inFlight + 1 })
  else
    (AcquireResult.rejected, s)

/-- Modelled from the spec: releasing a ticket decrements the in-flight
count (§4.1). -/
def release (s : AdmissionState) : AdmissionState :=
  { s with inFlight := s.inFlight - 1 }

/-- Iterated admission: `n` successive `acquire` calls, keeping only the
final state. -/
def acquireIter : ℕ → AdmissionState → AdmissionState
  | 0, s => s
  | n + 1, s => acquireIter n (acquire s).2

/-- Modelled from the spec: the configuration of the Artifact Receiver —
a size ceiling and an allow-list of media types (§4.2). -/
structure ReceiverConfig where
  sizeCeiling : ℕ
  allowedTypes : List String
deriving DecidableEq, Repr

/-- Modelled from the spec: a validated Artifact (§3) — raw bytes,
declared media type, size in bytes. -/
structure Artifact where
  content : List ℕ
  mediaType : String
  size : ℕ
deriving DecidableEq, Repr

/-- Modelled from the spec: the reasons `receive` fails (§4.2). -/
inductive ValidationError where
  | oversize
  | disallowedType
  | emptyPayload
  | truncated
deriving DecidableEq, Repr

/-- Modelled from the spec: `receive(stream, declared_media_type,
declared_size) -> Artifact | ValidationError` (§4.2).  Declared size is
checked against the ceiling before buffering; the media type must be on
the allow-list; empty or truncated payloads fail. -/
def receive (cfg : ReceiverConfig) (content : List ℕ)
    (declaredType : String) (declaredSize : ℕ) :
    Except ValidationError Artifact :=
  if cfg.sizeCeiling < declaredSize then .error .oversize
  else if declaredType ∉ cfg.allowedTypes then .error .disallowedType
  else if content.length = 0 then .error .emptyPayload
  else if content.length ≠ declaredSize then .error .truncated
  else .ok { content := content, mediaType := declaredType, size := declaredSize }

/-- Modelled from the spec: the error-to-status mapping of the Gateway for
`POST /verify` (§6): 413 oversize, 415 disallowed type, 400 for the
other validation failures. -/
def statusOfError (e : ValidationError) : ℕ :=
  match e with
  | .oversize => 413
  | .disallowedType => 415
  | .emptyPayload => 400
  | .truncated => 400

/-- Modelled from the spec: the HTTP status of `POST /verify` after the
Artifact Receiver runs — 200 only when an Artifact was constructed. -/
def verifyStatus (cfg : ReceiverConfig) (content : List ℕ)
    (declaredType : String) (declaredSize : ℕ) : ℕ :=
  match receive cfg content declaredType declaredSize with
  | .error e => statusOfError e
  | .ok _ => 200

/- ----------------------------------------------------------------
Helper lemmas on rounding and on the admission controller.
---------------------------------------------------------------- -/

lemma round_mono_q {x y : ℚ} (h : x ≤ y) : round x ≤ round y := by
  rw [round_eq, round_eq]
  exact Int.floor_mono (by linarith)

lemma roundTo_mono {d : ℕ} {x y : ℚ} (h : x ≤ y) :
    roundTo d x ≤ roundTo d y := by
  unfold roundTo
  have hp : (0 : ℚ) < 10 ^ d := by positivity
  have hr := round_mono_q (mul_le_mul_of_nonneg_right h (le_of_lt hp))
  exact (div_le_div_iff_of_pos_right hp).mpr (Int.cast_le.mpr hr)

lemma roundTo_fixed (d : ℕ) (k : ℤ) :
    roundTo d ((k : ℚ) / 10 ^ d) = (k : ℚ) / 10 ^ d := by
  unfold roundTo
  have hp : (10 : ℚ) ^ d ≠ 0 := by positivity
  rw [div_mul_cancel₀ _ hp, round_intCast]

lemma acquireIter_full (n : ℕ) (s : AdmissionState)
    (h : s.inFlight + n ≤ s.capacity) :
    acquireIter n s = { s with inFlight := s.inFlight + n } := by
  induction n generalizing s with
  | zero => simp [acquireIter]
  | succ m ih =>
    have hlt : s.inFlight < s.capacity := by omega
    have hstep : (acquire s).2 = { s with inFlight := s.inFlight + 1 } := by
      simp [acquire, hlt]
    simp only [acquireIter]
    rw [hstep, ih { s with inFlight := s.inFlight + 1 } (by simpa using by omega)]
    simp
    omega

lemma roundTo_intCast (d : ℕ) (n : ℤ) : roundTo d ((n : ℚ)) = n := by
  unfold roundTo
  rw [show ((n : ℚ) * 10 ^ d) = (((n * 10 ^ d : ℤ) : ℚ)) by push_cast; ring,
    round_intCast]
  have hp : (10 : ℚ) ^ d ≠ 0 := by positivity
  push_cast
  field_simp

lemma verify_drug_of_gt (f : UploadFileData) {c : ℚ} (a : ℚ) (h : ℕ)
    (hc : (0.5 : ℚ) < c) :
    verify_drug f c a h =
      { authentic := true
        confidence := roundTo 1 (c * 100)
        risk_level := "LOW"
        anomaly_score := roundTo 3 a
        blockchain_hash := hex64 h } := by
  simp [verify_drug, hc]

lemma verify_drug_of_le (f : UploadFileData) {c : ℚ} (a : ℚ) (h : ℕ)
    (hc : c ≤ (0.5 : ℚ)) :
    verify_drug f c a h =
      { authentic := false
        confidence := roundTo 1 (c * 100)
        risk_level := "HIGH"
        anomaly_score := roundTo 3 a
        blockchain_hash := hex64 h } := by
  simp [verify_drug, not_lt.mpr hc]

lemma confidence_lower {c : ℚ} (hlo : (0.55 : ℚ) ≤ c) :
    (55 : ℚ) ≤ roundTo 1 (c * 100) := by
  have h1 : ((55 : ℤ) : ℚ) ≤ c * 100 := by push_cast; linarith
  have := roundTo_mono (d := 1) h1
  rwa [roundTo_intCast 1 55] at this

lemma confidence_upper {c : ℚ} (hhi : c ≤ (0.95 : ℚ)) :
    roundTo 1 (c * 100) ≤ (95 : ℚ) := by
  have h1 : c * 100 ≤ ((95 : ℤ) : ℚ) := by push_cast; linarith
  have := roundTo_mono (d := 1) h1
  rwa [roundTo_intCast 1 95] at this

lemma anomaly_lower {a : ℚ} (hlo : (0.1 : ℚ) ≤ a) :
    (0.1 : ℚ) ≤ roundTo 3 a := by
  have h1 : ((100 : ℤ) : ℚ) / 10 ^ 3 ≤ a := by push_cast; norm_num; linarith
  have h2 := roundTo_mono (d := 3) (le_of_eq (rfl : ((100 : ℤ) : ℚ) / 10 ^ 3 = _))
  have h3 := roundTo_mono (d := 3) h1
  rw [roundTo_fixed 3 100] at h3
  calc (0.1 : ℚ) = ((100 : ℤ) : ℚ) / 10 ^ 3 := by norm_num
    _ ≤ roundTo 3 a := h3

lemma anomaly_upper {a : ℚ} (hhi : a ≤ (0.5 : ℚ)) :
    roundTo 3 a ≤ (0.5 : ℚ) := by
  have h1 : a ≤ ((500 : ℤ) : ℚ) / 10 ^ 3 := by push_cast; norm_num; linarith
  have h3 := roundTo_mono (d := 3) h1
  rw [roundTo_fixed 3 500] at h3
  calc roundTo 3 a ≤ ((500 : ℤ) : ℚ) / 10 ^ 3 := h3
    _ = (0.5 : ℚ) := by norm_num

/- ----------------------------------------------------------------
Claim theorems.
---------------------------------------------------------------- -/

/-- C1: for every verdict produced by POST /verify — the raw confidence
is a value of `random.uniform(0.55, 0.95)` — the authenticity flag is
true if and only if the rounded confidence percentage exceeds 50.0. -/
theorem C1_authentic_iff_confidence_gt_threshold (f : UploadFileData)
    (c a : ℚ) (h : ℕ) (hlo : (0.55 : ℚ) ≤ c) (hhi : c ≤ (0.95 : ℚ)) :
    (verify_drug f c a h).authentic = true ↔
      (verify_drug f c a h).confidence > (50 : ℚ) := by
  rw [verify_drug_of_gt f a h (by linarith)]
  have := confidence_lower hlo
  constructor
  · intro _
    simp only
    linarith
  · intro _
    rfl

/-- C1 witness: the theorem instantiated at a concrete produced verdict
(raw confidence 0.7). -/
theorem C1_witness :
    (verify_drug sampleFile (0.7 : ℚ) (0.3 : ℚ) 5).authentic = true ↔
      (verify_drug sampleFile (0.7 : ℚ) (0.3 : ℚ) 5).confidence > (50 : ℚ) :=
  C1_authentic_iff_confidence_gt_threshold sampleFile (0.7 : ℚ) (0.3 : ℚ) 5
    (by norm_num) (by norm_num)

/-- C2: verdict assembly is a pure function of the score result — for a
fixed upload and fixed random score draws, every field other than the
provenance hash is identical across two calls, whatever the two
provenance draws are; so the authentic flag, confidence, risk_level and
anomaly_score coincide. -/
theorem C2_assemble_pure (f : UploadFileData) (c a : ℚ) (h1 h2 : ℕ) :
    (verify_drug f c a h1).authentic = (verify_drug f c a h2).authentic ∧
    (verify_drug f c a h1).confidence = (verify_drug f c a h2).confidence ∧
    (verify_drug f c a h1).risk_level = (verify_drug f c a h2).risk_level ∧
    (verify_drug f c a h1).anomaly_score = (verify_drug f c a h2).anomaly_score :=
  ⟨rfl, rfl, rfl, rfl⟩

/-- C3: an artifact whose declared size exceeds the configured ceiling is
rejected by the receiver with the oversize validation error, POST /verify
answers 413 and not 200, and no Artifact is constructed. -/
theorem C3_oversize_413 (cfg : ReceiverConfig) (content : List ℕ)
    (t : String) (size : ℕ) (hover : cfg.sizeCeiling < size) :
    receive cfg content t size = .error .oversize ∧
    verifyStatus cfg content t size = 413 ∧
    verifyStatus cfg content t size ≠ 200 := by
  have hrec : receive cfg content t size = .error .oversize := by
    simp [receive, hover]
  refine ⟨hrec, ?_, ?_⟩ <;> simp [verifyStatus, hrec, statusOfError]

/-- C3 witness: ceiling 5 MiB, declared payload size 6 MiB. -/
theorem C3_witness :
    receive ⟨5242880, ["image/png"]⟩ [0] "image/png" 6291456 =
        .error .oversize ∧
    verifyStatus ⟨5242880, ["image/png"]⟩ [0] "image/png" 6291456 = 413 ∧
    verifyStatus ⟨5242880, ["image/png"]⟩ [0] "image/png" 6291456 ≠ 200 :=
  C3_oversize_413 ⟨5242880, ["image/png"]⟩ [0] "image/png" 6291456 (by decide)

/-- C4: starting from an idle controller of capacity C, every acquire call
while the in-flight count is below C returns a ticket, the acquire call
after C un-released admissions returns Rejected, and after one release
the next acquire succeeds again. -/
theorem C4_admission_capacity (C k : ℕ) (hC : 0 < C) (hk : k < C) :
    (acquire (acquireIter k ⟨C, 0⟩)).1 = AcquireResult.ticket ∧
    (acquire (acquireIter C ⟨C, 0⟩)).1 = AcquireResult.rejected ∧
    (acquire (release (acquireIter C ⟨C, 0⟩))).1 = AcquireResult.ticket := by
  have hfull : ∀ m, m ≤ C → acquireIter m ⟨C, 0⟩ = ⟨C, m⟩ := by
    intro m hm
    have := acquireIter_full m ⟨C, 0⟩ (by simpa using hm)
    simpa using this
  refine ⟨?_, ?_, ?_⟩
  · rw [hfull k (le_of_lt hk)]
    simp [acquire, hk]
  · rw [hfull C le_rfl]
    simp [acquire]
  · rw [hfull C le_rfl]
    have hlt : C - 1 < C := Nat.sub_lt hC one_pos
    simp [release, acquire, hlt]

/-- C4 witness: capacity 3, third call before saturation gives a ticket,
the fourth is rejected, and after a release admission resumes. -/
theorem C4_witness :
    (acquire (acquireIter 2 ⟨3, 0⟩)).1 = AcquireResult.ticket ∧
    (acquire (acquireIter 3 ⟨3, 0⟩)).1 = AcquireResult.rejected ∧
    (acquire (release (acquireIter 3 ⟨3, 0⟩))).1 = AcquireResult.ticket :=
  C4_admission_capacity 3 2 (by decide) (by decide)

/-- C5: on every verdict that POST /verify produces, risk_level is LOW
exactly when the authenticity flag is true and HIGH otherwise, takes no
other value, and — ranked with HIGH below LOW — is monotone in the
confidence percentage. -/
theorem C5_risk_two_tier_monotone (f f2 : UploadFileData) (c c2 a a2 : ℚ)
    (h h2 : ℕ) (hlo : (0.55 : ℚ) ≤ c) (hhi : c ≤ (0.95 : ℚ))
    (hlo2 : (0.55 : ℚ) ≤ c2) (hhi2 : c2 ≤ (0.95 : ℚ)) :
    ((verify_drug f c a h).risk_level =
        if (verify_drug f c a h).authentic then "LOW" else "HIGH") ∧
    ((verify_drug f c a h).risk_level = "LOW" ∨
        (verify_drug f c a h).risk_level = "HIGH") ∧
    ((verify_drug f c a h).confidence ≤ (verify_drug f2 c2 a2 h2).confidence →
      riskRank (verify_drug f c a h).risk_level ≤
        riskRank (verify_drug f2 c2 a2 h2).risk_level) := by
  rw [verify_drug_of_gt f a h (by linarith), verify_drug_of_gt f2 a2 h2 (by linarith)]
  exact ⟨rfl, Or.inl rfl, fun _ => le_refl _⟩

/-- C5 witness: two concrete produced verdicts, raw confidences 0.6
and 0.9. -/
theorem C5_witness :
    ((verify_drug sampleFile (0.6 : ℚ) (0.2 : ℚ) 7).risk_level =
        if (verify_drug sampleFile (0.6 : ℚ) (0.2 : ℚ) 7).authentic
        then "LOW" else "HIGH") ∧
    ((verify_drug sampleFile (0.6 : ℚ) (0.2 : ℚ) 7).risk_level = "LOW" ∨
        (verify_drug sampleFile (0.6 : ℚ) (0.2 : ℚ) 7).risk_level = "HIGH") ∧
    ((verify_drug sampleFile (0.6 : ℚ) (0.2 : ℚ) 7).confidence ≤
        (verify_drug otherFile (0.9 : ℚ) (0.4 : ℚ) 8).confidence →
      riskRank (verify_drug sampleFile (0.6 : ℚ) (0.2 : ℚ) 7).risk_level ≤
        riskRank (verify_drug otherFile (0.9 : ℚ) (0.4 : ℚ) 8).risk_level) :=
  C5_risk_two_tier_monotone sampleFile otherFile (0.6 : ℚ) (0.9 : ℚ)
    (0.2 : ℚ) (0.4 : ℚ) 7 8 (by norm_num) (by norm_num) (by norm_num) (by norm_num)

/-- C6: the 200 response of POST /verify carries exactly the five fields
of Verdict; confidence is the raw confidence times 100 rounded to one
decimal place and lies in the interval from 0 to 100; anomaly_score is
rounded to three decimal places; risk_level is LOW or HIGH, consistent
with the confidence percentage exceeding 50.0. -/
theorem C6_response_contract (f : UploadFileData) (c a : ℚ) (h : ℕ)
    (hlo : (0.55 : ℚ) ≤ c) (hhi : c ≤ (0.95 : ℚ)) :
    verify_drug f c a h =
      { authentic := (verify_drug f c a h).authentic
        confidence := (verify_drug f c a h).confidence
        risk_level := (verify_drug f c a h).risk_level
        anomaly_score := (verify_drug f c a h).anomaly_score
        blockchain_hash := (verify_drug f c a h).blockchain_hash } ∧
    (verify_drug f c a h).confidence = roundTo 1 (c * 100) ∧
    (∃ k : ℤ, (verify_drug f c a h).confidence = (k : ℚ) / 10 ^ 1) ∧
    (0 : ℚ) ≤ (verify_drug f c a h).confidence ∧
    (verify_drug f c a h).confidence ≤ (100 : ℚ) ∧
    (verify_drug f c a h).anomaly_score = roundTo 3 a ∧
    (∃ k : ℤ, (verify_drug f c a h).anomaly_score = (k : ℚ) / 10 ^ 3) ∧
    ((verify_drug f c a h).risk_level = "LOW" ↔
        (verify_drug f c a h).confidence > (50 : ℚ)) ∧
    ((verify_drug f c a h).risk_level = "LOW" ∨
        (verify_drug f c a h).risk_level = "HIGH") := by
  have hc : (0.5 : ℚ) < c := by linarith
  have hL := confidence_lower hlo
  have hU := confidence_upper hhi
  rw [verify_drug_of_gt f a h hc]
  refine ⟨rfl, rfl, ⟨round (c * 100 * 10 ^ 1), rfl⟩, by simpa using by linarith,
    by simpa using by linarith, rfl, ⟨round (a * 10 ^ 3), rfl⟩, ?_, Or.inl rfl⟩
  constructor
  · intro _
    simp only
    linarith
  · intro _
    rfl

/-- C6 witness: the contract instantiated at raw confidence 0.8 and raw
anomaly 0.25. -/
theorem C6_witness :
    verify_drug sampleFile (0.8 : ℚ) (0.25 : ℚ) 9 =
      { authentic := (verify_drug sampleFile (0.8 : ℚ) (0.25 : ℚ) 9).authentic
        confidence := (verify_drug sampleFile (0.8 : ℚ) (0.25 : ℚ) 9).confidence
        risk_level := (verify_drug sampleFile (0.8 : ℚ) (0.25 : ℚ) 9).risk_level
        anomaly_score := (verify_drug sampleFile (0.8 : ℚ) (0.25 : ℚ) 9).anomaly_score
        blockchain_hash :=
          (verify_drug sampleFile (0.8 : ℚ) (0.25 : ℚ) 9).blockchain_hash } ∧
    (verify_drug sampleFile (0.8 : ℚ) (0.25 : ℚ) 9).confidence =
      roundTo 1 ((0.8 : ℚ) * 100) ∧
    (∃ k : ℤ,
      (verify_drug sampleFile (0.8 : ℚ) (0.25 : ℚ) 9).confidence = (k : ℚ) / 10 ^ 1) ∧
    (0 : ℚ) ≤ (verify_drug sampleFile (0.8 : ℚ) (0.25 : ℚ) 9).confidence ∧
    (verify_drug sampleFile (0.8 : ℚ) (0.25 : ℚ) 9).confidence ≤ (100 : ℚ) ∧
    (verify_drug sampleFile (0.8 : ℚ) (0.25 : ℚ) 9).anomaly_score =
      roundTo 3 (0.25 : ℚ) ∧
    (∃ k : ℤ,
      (verify_drug sampleFile (0.8 : ℚ) (0.25 : ℚ) 9).anomaly_score =
        (k : ℚ) / 10 ^ 3) ∧
    ((verify_drug sampleFile (0.8 : ℚ) (0.25 : ℚ) 9).risk_level = "LOW" ↔
        (verify_drug sampleFile (0.8 : ℚ) (0.25 : ℚ) 9).confidence > (50 : ℚ)) ∧
    ((verify_drug sampleFile (0.8 : ℚ) (0.25 : ℚ) 9).risk_level = "LOW" ∨
        (verify_drug sampleFile (0.8 : ℚ) (0.25 : ℚ) 9).risk_level = "HIGH") :=
  C6_response_contract sampleFile (0.8 : ℚ) (0.25 : ℚ) 9 (by norm_num) (by norm_num)

/-- C7: GET /health returns the constant body with status healthy and
service medchain-oracle-api; the handler takes no input and reads no
state, so every call yields this value. -/
theorem C7_health_constant :
    health_check = { status := "healthy", service := "medchain-oracle-api" } :=
  rfl

/-- C8: GET /shortage-prediction returns a constant payload with exactly
the four fields drug, location, risk_score and recommendation; the
handler takes no input, so every call yields this value. -/
theorem C8_shortage_constant :
    predict_shortage =
      { drug := "Insulin Glargine 100U/mL"
        location := "Mumbai Central"
        risk_score := (85.0 : ℚ)
        recommendation := "URGENT: Order 259 units immediately" } :=
  rfl

/-- C9: because the raw confidence is drawn from the interval from 0.55
to 0.95, every produced verdict is authentic with risk LOW — the HIGH
branch is unreachable — the confidence lies between 55.0 and 95.0 and
the anomaly score between 0.1 and 0.5. -/
theorem C9_high_branch_unreachable (f : UploadFileData) (c a : ℚ) (h : ℕ)
    (hclo : (0.55 : ℚ) ≤ c) (hchi : c ≤ (0.95 : ℚ))
    (halo : (0.1 : ℚ) ≤ a) (hahi : a ≤ (0.5 : ℚ)) :
    (verify_drug f c a h).authentic = true ∧
    (verify_drug f c a h).risk_level = "LOW" ∧
    (verify_drug f c a h).risk_level ≠ "HIGH" ∧
    (55 : ℚ) ≤ (verify_drug f c a h).confidence ∧
    (verify_drug f c a h).confidence ≤ (95 : ℚ) ∧
    (0.1 : ℚ) ≤ (verify_drug f c a h).anomaly_score ∧
    (verify_drug f c a h).anomaly_score ≤ (0.5 : ℚ) := by
  rw [verify_drug_of_gt f a h (by linarith)]
  refine ⟨rfl, rfl, by simp, ?_, ?_, ?_, ?_⟩
  · simpa using confidence_lower hclo
  · simpa using confidence_upper hchi
  · simpa using anomaly_lower halo
  · simpa using anomaly_upper hahi

/-- C9 witness: the theorem instantiated at raw confidence 0.55 and raw
anomaly 0.1 — the extreme ends of the sampled intervals. -/
theorem C9_witness :
    (verify_drug sampleFile (0.55 : ℚ) (0.1 : ℚ) 11).authentic = true ∧
    (verify_drug sampleFile (0.55 : ℚ) (0.1 : ℚ) 11).risk_level = "LOW" ∧
    (verify_drug sampleFile (0.55 : ℚ) (0.1 : ℚ) 11).risk_level ≠ "HIGH" ∧
    (55 : ℚ) ≤ (verify_drug sampleFile (0.55 : ℚ) (0.1 : ℚ) 11).confidence ∧
    (verify_drug sampleFile (0.55 : ℚ) (0.1 : ℚ) 11).confidence ≤ (95 : ℚ) ∧
    (0.1 : ℚ) ≤ (verify_drug sampleFile (0.55 : ℚ) (0.1 : ℚ) 11).anomaly_score ∧
    (verify_drug sampleFile (0.55 : ℚ) (0.1 : ℚ) 11).anomaly_score ≤ (0.5 : ℚ) :=
  C9_high_branch_unreachable sampleFile (0.55 : ℚ) (0.1 : ℚ) 11
    (by norm_num) (by norm_num) (by norm_num) (by norm_num)

/-- C10: the response of POST /verify does not depend on the uploaded
file — for any two uploads (any names, media types, contents and sizes,
including empty and oversized payloads) scored from the same
random-generator draws, the verdicts are identical; in particular no
upload is ever rejected. -/
theorem C10_upload_ignored (f1 f2 : UploadFileData) (c a : ℚ) (h : ℕ) :
    verify_drug f1 c a h = verify_drug f2 c a h :=
  rfl

end MedChain
